import Mathlib

/-!
Verification of the discovery-relay components of the ESP32-GenICam repository:
`scripts/discovery_proxy.py` (class `DiscoveryProxy`) and
`scripts/esp32_response_relay.py` (class `ESP32ResponseRelay`).

The embedding models byte buffers as `List Nat` (each byte `0..255` in
practice; all definitions are total on `Nat`), IP addresses as `String`,
timestamps as `Int`, and the Python `dict` pending tables as association
lists `List (Nat × entry)` with overwrite-on-insert.  UDP sends are recorded
explicitly as `Send` values: `sourceBind = none` models a socket that was
never bound to a local address (the OS picks an arbitrary one), and
`sourceBind = some ip` models a socket bound to `(ip, 0)` before sending.
Fallible effects (a `sendto` raising) are modelled by boolean oracles.
-/

namespace GVCP

/-- The fixed 8-byte GVCP header, fields as unpacked by `struct.unpack('>BBHHH', data[:8])`. -/
structure Header where
  packet_type : Nat
  flags : Nat
  command : Nat
  payload_size : Nat
  transaction_id : Nat
deriving Repr, DecidableEq

/-- Model of `struct.unpack('>BBHHH', data[:8])` preceded by the `len(data) < 8` check
both scripts perform: fails (returns `none`) exactly on buffers shorter than
8 bytes, otherwise decodes the big-endian fields of the first 8 bytes. -/
def parse_header (data : List Nat) : Option Header :=
  match data with
  | b0 :: b1 :: b2 :: b3 :: b4 :: b5 :: b6 :: b7 :: _ =>
      some ⟨b0, b1, b2 * 256 + b3, b4 * 256 + b5, b6 * 256 + b7⟩
  | _ => none

/-- A UDP datagram emitted by the relay.  `sourceBind` is the local address
the sending socket was explicitly bound to (`none` = unbound socket, OS
chooses the source address). -/
structure Send where
  sourceBind : Option String
  dest_ip : String
  dest_port : Nat
  payload : List Nat
deriving Repr, DecidableEq

/-- Generic Python-dict operation `d[k] = v`: inserts or overwrites, so the
key occurs at most once afterwards. -/
def record {α : Type} (t : List (Nat × α)) (pid : Nat) (e : α) : List (Nat × α) :=
  (pid, e) :: t.filter (fun p => p.1 != pid)

/-- Generic Python-dict lookup `d.get(k)` / `k in d` combined. -/
def lookup {α : Type} (t : List (Nat × α)) (pid : Nat) : Option α :=
  (t.find? (fun p => p.1 == pid)).map Prod.snd

/-- Generic Python-dict deletion `del d[k]`. -/
def delete {α : Type} (t : List (Nat × α)) (pid : Nat) : List (Nat × α) :=
  t.filter (fun p => p.1 != pid)

/-- The keys of a pending table. -/
def keys {α : Type} (t : List (Nat × α)) : List Nat :=
  t.map Prod.fst

end GVCP

namespace DiscoveryProxy

open GVCP

/-- Model of `DiscoveryProxy.is_discovery_packet`: requires at least 8 bytes,
`packet_type == 0x42`, `command == 0x0002` AND `size == 0`. -/
def is_discovery_packet (data : List Nat) : Bool :=
  match parse_header data with
  | some h => h.packet_type == 0x42 && h.command == 0x0002 && h.payload_size == 0
  | none => false

/-- Model of `DiscoveryProxy.is_discovery_response`: at least 8 bytes,
`packet_type == 0x00` and `command == 0x0003`. -/
def is_discovery_response (data : List Nat) : Bool :=
  match parse_header data with
  | some h => h.packet_type == 0x00 && h.command == 0x0003
  | none => false

/-- Model of `DiscoveryProxy.get_packet_id`: the transaction id of the header, or
`None` on buffers shorter than 8 bytes. -/
def get_packet_id (data : List Nat) : Option Nat :=
  (parse_header data).map Header.transaction_id

/-- One value of `DiscoveryProxy.pending_requests`:
`(requester_ip, requester_port, timestamp)`.  Note the table does NOT record
the interface the request arrived on. -/
structure PendingEntry where
  requester_ip : String
  requester_port : Nat
  timestamp : Int
deriving Repr, DecidableEq

/-- Model of `DiscoveryProxy.pending_requests`: `packet_id -> (ip, port, timestamp)`. -/
abbrev PendingTable := List (Nat × PendingEntry)

/-- The `DiscoveryProxy.stats` counters. -/
structure Stats where
  broadcasts_received : Nat
  unicast_forwards : Nat
  responses_received : Nat
  responses_forwarded : Nat
  errors : Nat
deriving Repr, DecidableEq

/-- All-zero counters, as set up in `DiscoveryProxy.__init__`. -/
def Stats.init : Stats := ⟨0, 0, 0, 0, 0⟩

/-- Model of `DiscoveryProxy.handle_esp32_response`, with the current time `now`, the
TTL `ttl` (`self.request_timeout`, 5 s by default) and a boolean oracle
`send_ok` telling whether the `sendto` to the requester succeeds.  Returns
the new pending table, the new stats, and the list of datagrams sent.
The response socket is created without any `bind`, so its `sourceBind`
is `none`. -/
def handle_esp32_response (t : PendingTable) (s : Stats) (response_data : List Nat)
    (packet_id : Nat) (now ttl : Int) (send_ok : Bool) :
    PendingTable × Stats × List Send :=
  match lookup t packet_id with
  | none => (t, s, [])
  | some e =>
    if now - e.timestamp > ttl then
      (delete t packet_id, s, [])
    else if send_ok then
      (delete t packet_id,
       { s with responses_forwarded := s.responses_forwarded + 1 },
       [⟨none, e.requester_ip, e.requester_port, response_data⟩])
    else
      (t, { s with errors := s.errors + 1 }, [])

/-- The body of the per-device loop in `DiscoveryProxy.forward_to_esp32`.
`reach d` tells whether creating the socket and `sendto (d, 3956)` succeed;
`recv d` is the datagram (if any) received on the forwarding socket within
its 1 s timeout; `resp_send_ok d` tells whether the inner
`handle_esp32_response` relay send succeeds.  The forwarding socket is
created without `bind`. -/
def forward_device_step (packet : List Nat) (pid : Nat) (now ttl : Int)
    (reach : String → Bool) (recv : String → Option (List Nat))
    (resp_send_ok : String → Bool)
    (acc : PendingTable × Stats × List Send) (d : String) :
    PendingTable × Stats × List Send :=
  let t := acc.1
  let s := acc.2.1
  let out := acc.2.2
  if reach d then
    let s1 := { s with unicast_forwards := s.unicast_forwards + 1 }
    let out1 := out ++ [⟨none, d, 3956, packet⟩]
    match recv d with
    | some resp =>
      if is_discovery_response resp then
        let r := handle_esp32_response t s1 resp pid now ttl (resp_send_ok d)
        (r.1, { r.2.1 with responses_received := r.2.1.responses_received + 1 },
         out1 ++ r.2.2)
      else (t, s1, out1)
    | none => (t, s1, out1)
  else
    (t, { s with errors := s.errors + 1 }, out)

/-- Model of `DiscoveryProxy.forward_to_esp32`: extract the packet id (error counted
if the packet is shorter than 8 bytes), record the requester in the pending
table with the current timestamp, then try every configured ESP32 device in
turn, each inside its own try/except. -/
def forward_to_esp32 (t : PendingTable) (s : Stats) (packet : List Nat)
    (requester_ip : String) (requester_port : Nat) (now ttl : Int)
    (devices : List String) (reach : String → Bool)
    (recv : String → Option (List Nat)) (resp_send_ok : String → Bool) :
    PendingTable × Stats × List Send :=
  match get_packet_id packet with
  | none => (t, { s with errors := s.errors + 1 }, [])
  | some pid =>
    let t1 := record t pid ⟨requester_ip, requester_port, now⟩
    devices.foldl (forward_device_step packet pid now ttl reach recv resp_send_ok)
      (t1, s, [])

/-- One received-datagram iteration of `DiscoveryProxy.listen_on_interface`:
a packet classified as a discovery command is counted and handed to
`forward_to_esp32`; anything else is logged at debug level and dropped
without touching the table or the counters, and the loop continues. -/
def listen_step (t : PendingTable) (s : Stats) (data : List Nat)
    (sender_ip : String) (sender_port : Nat) (now ttl : Int)
    (devices : List String) (reach : String → Bool)
    (recv : String → Option (List Nat)) (resp_send_ok : String → Bool) :
    PendingTable × Stats × List Send :=
  if is_discovery_packet data then
    forward_to_esp32 t
      { s with broadcasts_received := s.broadcasts_received + 1 }
      data sender_ip sender_port now ttl devices reach recv resp_send_ok
  else
    (t, s, [])

/-- Model of `DiscoveryProxy.cleanup_expired_requests`: collect the ids whose entry
satisfies `current_time - timestamp > self.request_timeout`, then delete
those ids from the table. -/
def cleanup_expired_requests (t : PendingTable) (now ttl : Int) : PendingTable :=
  let expired_ids :=
    (t.filter (fun p => decide (now - p.2.timestamp > ttl))).map Prod.fst
  t.filter (fun p => !(expired_ids.contains p.1))

end DiscoveryProxy

namespace ESP32ResponseRelay

open GVCP

/-- Model of `ESP32ResponseRelay.is_discovery_packet`: at least 8 bytes,
`magic == 0x42` and `cmd == 0x0002`; the `length` field is unused. -/
def is_discovery_packet (data : List Nat) : Bool :=
  match parse_header data with
  | some h => h.packet_type == 0x42 && h.command == 0x0002
  | none => false

/-- Model of `ESP32ResponseRelay.is_discovery_response`: at least 8 bytes,
`magic == 0x00` and `cmd == 0x0003`. -/
def is_discovery_response (data : List Nat) : Bool :=
  match parse_header data with
  | some h => h.packet_type == 0x00 && h.command == 0x0003
  | none => false

/-- Model of `ESP32ResponseRelay.get_packet_id`: the transaction id, `0` on buffers
shorter than 8 bytes. -/
def get_packet_id (data : List Nat) : Nat :=
  match parse_header data with
  | some h => h.transaction_id
  | none => 0

/-- One value of `ESP32ResponseRelay.pending_discoveries`:
`(interface_ip, requester_port, timestamp)`.  Note the table does NOT record
the requester's IP address, only the port it sent from and the interface
the request arrived on. -/
structure Pending where
  interface_ip : String
  requester_port : Nat
  timestamp : Int
deriving Repr, DecidableEq

/-- Model of `ESP32ResponseRelay.pending_discoveries`:
`packet_id -> (interface, port, timestamp)`. -/
abbrev PendingTable := List (Nat × Pending)

/-- One received-datagram iteration of
`ESP32ResponseRelay.monitor_interface_discoveries` on the listener bound to
`interface_ip`: a discovery command is recorded (overwriting any entry with
the same packet id) and forwarded to the ESP32 from an unbound socket;
anything else is dropped. -/
def monitor_interface_step (t : PendingTable) (data : List Nat)
    (interface_ip : String) (sender_port : Nat) (now : Int)
    (esp32_ip : String) : PendingTable × List Send :=
  if is_discovery_packet data then
    (record t (get_packet_id data) ⟨interface_ip, sender_port, now⟩,
     [⟨none, esp32_ip, 3956, data⟩])
  else
    (t, [])

/-- One received-datagram iteration of
`ESP32ResponseRelay.monitor_esp32_responses`: a discovery response coming
from the configured ESP32 is matched against the pending table by packet id;
on a hit the response bytes are relayed from a socket bound to
`(interface_ip, 0)` to the destination `(interface_ip, requester_port)`,
and the entry is deleted.  No TTL check is performed here. -/
def monitor_esp32_response_step (t : PendingTable) (data : List Nat)
    (sender_ip esp32_ip : String) : PendingTable × List Send :=
  if sender_ip == esp32_ip && is_discovery_response data then
    let pid := get_packet_id data
    match lookup t pid with
    | some e =>
        (delete t pid,
         [⟨some e.interface_ip, e.interface_ip, e.requester_port, data⟩])
    | none => (t, [])
  else
    (t, [])

/-- Model of `ESP32ResponseRelay.cleanup_expired_discoveries`: collect the ids whose
entry satisfies `current_time - ts > 5.0`, then delete those ids.  The TTL
is hard-coded to 5 seconds; we keep it a parameter `ttl` instantiated with 5
where the scripts' constant matters. -/
def cleanup_expired_discoveries (t : PendingTable) (now ttl : Int) : PendingTable :=
  let expired :=
    (t.filter (fun p => decide (now - p.2.timestamp > ttl))).map Prod.fst
  t.filter (fun p => !(expired.contains p.1))

end ESP32ResponseRelay

namespace Fixtures

def discovery_request : List Nat := [0x42, 0x01, 0x00, 0x02, 0x00, 0x00, 0x12, 0x34]

def discovery_reply : List Nat := [0x00, 0x00, 0x00, 0x03, 0x00, 0x00, 0x12, 0x34]

def dp_entry : DiscoveryProxy.PendingEntry := ⟨"10.0.0.5", 50000, 0⟩

def dp_entry2 : DiscoveryProxy.PendingEntry := ⟨"10.0.0.6", 40000, 1⟩

def relay_entry : ESP32ResponseRelay.Pending := ⟨"10.0.0.1", 50000, 0⟩

def relay_entry2 : ESP32ResponseRelay.Pending := ⟨"10.0.0.2", 40000, 1⟩

def dp_table : DiscoveryProxy.PendingTable := [(0x1234, dp_entry)]

def relay_table : ESP32ResponseRelay.PendingTable := [(0x1234, relay_entry)]

end Fixtures

namespace GVCP

theorem lookup_record_self {α : Type} (t : List (Nat × α)) (pid : Nat) (e : α) :
    lookup (record t pid e) pid = some e := by
  simp [lookup, record, List.find?]

theorem lookup_delete_self {α : Type} (t : List (Nat × α)) (pid : Nat) :
    lookup (delete t pid) pid = none := by
  simp only [lookup, delete, Option.map_eq_none']
  rw [List.find?_eq_none]
  intro x hx
  rcases List.mem_filter.1 hx with ⟨_, hne⟩
  simpa using hne

theorem keys_record_nodup {α : Type} {t : List (Nat × α)} (h : (keys t).Nodup)
    (pid : Nat) (e : α) : (keys (record t pid e)).Nodup := by
  simp only [keys, record, List.map_cons, List.nodup_cons]
  constructor
  · intro hmem
    rcases List.mem_map.1 hmem with ⟨p, hp, hfst⟩
    rcases List.mem_filter.1 hp with ⟨_, hne⟩
    exact absurd hfst (by simpa using hne)
  · exact List.Nodup.sublist (List.Sublist.map _ (List.filter_sublist t)) h

theorem keys_delete_nodup {α : Type} {t : List (Nat × α)} (h : (keys t).Nodup)
    (pid : Nat) : (keys (delete t pid)).Nodup :=
  List.Nodup.sublist (List.Sublist.map _ (List.filter_sublist t)) h

theorem mem_eq_of_nodup_keys {α : Type} {t : List (Nat × α)} (h : (keys t).Nodup)
    {pid : Nat} {e e' : α} (h1 : (pid, e) ∈ t) (h2 : (pid, e') ∈ t) : e = e' := by
  induction t with
  | nil => cases h1
  | cons a t ih =>
    simp only [keys, List.map_cons, List.nodup_cons] at h
    rcases List.mem_cons.1 h1 with rfl | h1'
    · rcases List.mem_cons.1 h2 with h2' | h2'
      · cases h2'; rfl
      · exact absurd (List.mem_map_of_mem Prod.fst h2') (by simpa using h.1)
    · rcases List.mem_cons.1 h2 with rfl | h2'
      · exact absurd (List.mem_map_of_mem Prod.fst h1') (by simpa using h.1)
      · exact ih h.2 h1' h2'

end GVCP

namespace GVCP

theorem mem_sweep_iff {α : Type} (ts : α → Int) {t : List (Nat × α)}
    (h : (keys t).Nodup) (now ttl : Int) (pid : Nat) (e : α) :
    (pid, e) ∈ t.filter
        (fun p => !(((t.filter (fun q => decide (now - ts q.2 > ttl))).map
          Prod.fst).contains p.1)) ↔
      (pid, e) ∈ t ∧ now - ts e ≤ ttl := by
  constructor
  · intro hx
    rcases List.mem_filter.1 hx with ⟨hm, hb⟩
    simp only [Bool.not_eq_true'] at hb
    refine ⟨hm, ?_⟩
    by_contra hgt
    push_neg at hgt
    have hmem : (pid, e).1 ∈
        (t.filter (fun q => decide (now - ts q.2 > ttl))).map Prod.fst :=
      List.mem_map_of_mem Prod.fst (List.mem_filter.2 ⟨hm, by simpa using hgt⟩)
    simp at hb hmem
    rcases hmem with ⟨x, hx1, hx2⟩
    have := hb x hx1
    omega
  · rintro ⟨hm, hle⟩
    refine List.mem_filter.2 ⟨hm, ?_⟩
    have hnot : (pid, e).1 ∉
        (t.filter (fun q => decide (now - ts q.2 > ttl))).map Prod.fst := by
      intro hmem
      rcases List.mem_map.1 hmem with ⟨p, hp, hfst⟩
      rcases List.mem_filter.1 hp with ⟨hpt, hold⟩
      have hpe : (pid, p.2) ∈ t := by
        cases p
        simp only at hfst
        simpa [hfst] using hpt
      have he : p.2 = e := mem_eq_of_nodup_keys h hpe hm
      rw [he] at hold
      simp at hold
      omega
    simp [hnot]

end GVCP

namespace GVCP

theorem parse_header_eq_none_iff (data : List Nat) :
    parse_header data = none ↔ data.length < 8 := by
  rcases data with _ | ⟨b0, _ | ⟨b1, _ | ⟨b2, _ | ⟨b3, _ | ⟨b4, _ | ⟨b5, _ |
    ⟨b6, _ | ⟨b7, rest⟩⟩⟩⟩⟩⟩⟩⟩ <;> simp [parse_header]

theorem length_ge_of_parse_header {data : List Nat} {h : Header}
    (hp : parse_header data = some h) : 8 ≤ data.length := by
  by_contra hlt
  push_neg at hlt
  rw [(parse_header_eq_none_iff data).2 hlt] at hp
  cases hp

end GVCP

/-- C9: For every byte buffer, both discovery-reply classifiers
(`DiscoveryProxy.is_discovery_response` and
`ESP32ResponseRelay.is_discovery_response`) return true iff the buffer is at
least 8 bytes and its decoded header has `packet_type == 0x00` and
`command == 0x0003`; both are pure functions of the buffer. -/
theorem spec_C9_is_discovery_response_iff (data : List Nat) :
    (DiscoveryProxy.is_discovery_response data = true ↔
      8 ≤ data.length ∧ ∃ h, GVCP.parse_header data = some h ∧
        h.packet_type = 0x00 ∧ h.command = 0x0003) ∧
    (ESP32ResponseRelay.is_discovery_response data = true ↔
      8 ≤ data.length ∧ ∃ h, GVCP.parse_header data = some h ∧
        h.packet_type = 0x00 ∧ h.command = 0x0003) := by
  constructor
  · unfold DiscoveryProxy.is_discovery_response
    rcases hp : GVCP.parse_header data with _ | h
    · simp only [Bool.false_eq_true, false_iff]
      rintro ⟨-, h, hh, -⟩
      cases hh
    · simp only [Bool.and_eq_true, beq_iff_eq]
      constructor
      · rintro ⟨h1, h2⟩
        exact ⟨GVCP.length_ge_of_parse_header hp, h, rfl, h1, h2⟩
      · rintro ⟨-, h', hh, h1, h2⟩
        cases hh
        exact ⟨h1, h2⟩
  · unfold ESP32ResponseRelay.is_discovery_response
    rcases hp : GVCP.parse_header data with _ | h
    · simp only [Bool.false_eq_true, false_iff]
      rintro ⟨-, h, hh, -⟩
      cases hh
    · simp only [Bool.and_eq_true, beq_iff_eq]
      constructor
      · rintro ⟨h1, h2⟩
        exact ⟨GVCP.length_ge_of_parse_header hp, h, rfl, h1, h2⟩
      · rintro ⟨-, h', hh, h1, h2⟩
        cases hh
        exact ⟨h1, h2⟩

/-- C2: The claim fails on `DiscoveryProxy.is_discovery_packet`, which
additionally requires `payload_size == 0`: the 8-byte buffer with
`packet_type = 0x42`, `command = 0x0002` but `payload_size = 8` is rejected
by `DiscoveryProxy` while `ESP32ResponseRelay.is_discovery_packet` (and the
spec) accept it. -/
theorem spec_C2_payload_size_rejects :
    DiscoveryProxy.is_discovery_packet
      [0x42, 0x01, 0x00, 0x02, 0x00, 0x08, 0x12, 0x34] = false ∧
    GVCP.parse_header [0x42, 0x01, 0x00, 0x02, 0x00, 0x08, 0x12, 0x34] =
      some ⟨0x42, 0x01, 0x0002, 0x0008, 0x1234⟩ ∧
    ESP32ResponseRelay.is_discovery_packet
      [0x42, 0x01, 0x00, 0x02, 0x00, 0x08, 0x12, 0x34] = true := by
  decide

/-- C5: Both sweeps (`DiscoveryProxy.cleanup_expired_requests` and
`ESP32ResponseRelay.cleanup_expired_discoveries`) remove exactly the entries
with `now - created_at > ttl` and keep every younger entry. -/
theorem spec_C5_sweep_exact
    (t1 : DiscoveryProxy.PendingTable) (t2 : ESP32ResponseRelay.PendingTable)
    (h1 : (GVCP.keys t1).Nodup) (h2 : (GVCP.keys t2).Nodup)
    (now ttl : Int) (pid : Nat) (e : DiscoveryProxy.PendingEntry)
    (p : ESP32ResponseRelay.Pending) :
    ((pid, e) ∈ DiscoveryProxy.cleanup_expired_requests t1 now ttl ↔
      (pid, e) ∈ t1 ∧ now - e.timestamp ≤ ttl) ∧
    ((pid, p) ∈ ESP32ResponseRelay.cleanup_expired_discoveries t2 now ttl ↔
      (pid, p) ∈ t2 ∧ now - p.timestamp ≤ ttl) :=
  ⟨GVCP.mem_sweep_iff DiscoveryProxy.PendingEntry.timestamp h1 now ttl pid e,
   GVCP.mem_sweep_iff ESP32ResponseRelay.Pending.timestamp h2 now ttl pid p⟩

theorem spec_C5_sweep_exact_witness :
    (GVCP.keys ([(0x1234, ⟨"10.0.0.5", 50000, 0⟩)] :
       DiscoveryProxy.PendingTable)).Nodup ∧
    (GVCP.keys ([] : ESP32ResponseRelay.PendingTable)).Nodup ∧
    (((0x1234, (⟨"10.0.0.5", 50000, 0⟩ : DiscoveryProxy.PendingEntry)) ∈
        DiscoveryProxy.cleanup_expired_requests
          [(0x1234, ⟨"10.0.0.5", 50000, 0⟩)] 6 5 ↔
      ((0x1234, (⟨"10.0.0.5", 50000, 0⟩ : DiscoveryProxy.PendingEntry)) ∈
        ([(0x1234, ⟨"10.0.0.5", 50000, 0⟩)] : DiscoveryProxy.PendingTable) ∧
        (6 : Int) - 0 ≤ 5))) :=
  ⟨by decide, by decide,
   (spec_C5_sweep_exact [(0x1234, ⟨"10.0.0.5", 50000, 0⟩)] []
      (by decide) (by decide) 6 5 0x1234 ⟨"10.0.0.5", 50000, 0⟩
      ⟨"10.0.0.1", 50000, 0⟩).1⟩

/-- C3: Resolving a pending entry removes it: after a successful relay
of a reply for a transaction id, the entry is gone from the table and a
second reply with the same id finds no entry and produces no send, in both
scripts. -/
theorem spec_C3_resolve_single_use
    (t : DiscoveryProxy.PendingTable) (s s' : DiscoveryProxy.Stats)
    (resp resp' : List Nat) (pid : Nat) (now ttl now' ttl' : Int)
    (e : DiscoveryProxy.PendingEntry) (ok' : Bool)
    (t2 : ESP32ResponseRelay.PendingTable) (data : List Nat) (ip : String)
    (p : ESP32ResponseRelay.Pending)
    (h1 : GVCP.lookup t pid = some e)
    (h2 : now - e.timestamp ≤ ttl)
    (h3 : ESP32ResponseRelay.is_discovery_response data = true)
    (h4 : GVCP.lookup t2 (ESP32ResponseRelay.get_packet_id data) = some p) :
    ((DiscoveryProxy.handle_esp32_response t s resp pid now ttl true).1 =
        GVCP.delete t pid ∧
      GVCP.lookup (GVCP.delete t pid) pid = none ∧
      DiscoveryProxy.handle_esp32_response (GVCP.delete t pid) s' resp' pid
          now' ttl' ok' = (GVCP.delete t pid, s', [])) ∧
    ((ESP32ResponseRelay.monitor_esp32_response_step t2 data ip ip).1 =
        GVCP.delete t2 (ESP32ResponseRelay.get_packet_id data) ∧
      GVCP.lookup (GVCP.delete t2 (ESP32ResponseRelay.get_packet_id data))
          (ESP32ResponseRelay.get_packet_id data) = none ∧
      ESP32ResponseRelay.monitor_esp32_response_step
          (GVCP.delete t2 (ESP32ResponseRelay.get_packet_id data)) data ip ip =
        (GVCP.delete t2 (ESP32ResponseRelay.get_packet_id data), [])) := by
  refine ⟨⟨?_, GVCP.lookup_delete_self t pid, ?_⟩, ⟨?_, GVCP.lookup_delete_self _ _, ?_⟩⟩
  · simp [DiscoveryProxy.handle_esp32_response, h1, if_neg (by omega : ¬ now - e.timestamp > ttl)]
  · simp [DiscoveryProxy.handle_esp32_response, GVCP.lookup_delete_self]
  · simp [ESP32ResponseRelay.monitor_esp32_response_step, h3, h4]
  · simp [ESP32ResponseRelay.monitor_esp32_response_step, h3, GVCP.lookup_delete_self]

/-- C10: If the relay send back to the requester fails,
`DiscoveryProxy.handle_esp32_response` leaves the pending table unchanged and
only increments the error counter; the entry is deleted only after a
successful send, so a later duplicate reply within the TTL still resolves it. -/
theorem spec_C10_send_failure_keeps_entry
    (t : DiscoveryProxy.PendingTable) (s s2 : DiscoveryProxy.Stats)
    (resp resp2 : List Nat) (pid : Nat) (now ttl now2 : Int)
    (e : DiscoveryProxy.PendingEntry)
    (h1 : GVCP.lookup t pid = some e)
    (h2 : now - e.timestamp ≤ ttl)
    (h3 : now2 - e.timestamp ≤ ttl) :
    DiscoveryProxy.handle_esp32_response t s resp pid now ttl false =
      (t, { s with errors := s.errors + 1 }, []) ∧
    (DiscoveryProxy.handle_esp32_response t s2 resp2 pid now2 ttl true).2.2 =
      [⟨none, e.requester_ip, e.requester_port, resp2⟩] ∧
    (DiscoveryProxy.handle_esp32_response t s2 resp2 pid now2 ttl true).1 =
      GVCP.delete t pid := by
  refine ⟨?_, ?_, ?_⟩
  · simp [DiscoveryProxy.handle_esp32_response, h1, if_neg (by omega : ¬ now - e.timestamp > ttl)]
  · simp [DiscoveryProxy.handle_esp32_response, h1, if_neg (by omega : ¬ now2 - e.timestamp > ttl)]
  · simp [DiscoveryProxy.handle_esp32_response, h1, if_neg (by omega : ¬ now2 - e.timestamp > ttl)]

/-- C4: The pending tables keep at most one live entry per transaction
id: `GVCP.record` (the model of the Python dict assignment both scripts use)
preserves distinctness of keys, a second `record` with the same id
overwrites the first (last-write-wins), and a subsequent reply resolves only
the second requester, in both scripts. -/
theorem spec_C4_last_write_wins
    {α : Type} (t0 : List (Nat × α)) (pid0 : Nat) (e0 e0' : α)
    (t : DiscoveryProxy.PendingTable) (s : DiscoveryProxy.Stats)
    (resp : List Nat) (pid : Nat) (now ttl : Int)
    (e1 e2 : DiscoveryProxy.PendingEntry)
    (t2 : ESP32ResponseRelay.PendingTable) (data : List Nat) (ip : String)
    (p1 p2 : ESP32ResponseRelay.Pending)
    (h0 : (GVCP.keys t0).Nodup)
    (h2 : now - e2.timestamp ≤ ttl)
    (h3 : ESP32ResponseRelay.is_discovery_response data = true) :
    (GVCP.keys (GVCP.record t0 pid0 e0)).Nodup ∧
    GVCP.lookup (GVCP.record (GVCP.record t0 pid0 e0) pid0 e0') pid0 = some e0' ∧
    (DiscoveryProxy.handle_esp32_response
        (GVCP.record (GVCP.record t pid e1) pid e2) s resp pid now ttl true).2.2 =
      [⟨none, e2.requester_ip, e2.requester_port, resp⟩] ∧
    (ESP32ResponseRelay.monitor_esp32_response_step
        (GVCP.record (GVCP.record t2 (ESP32ResponseRelay.get_packet_id data) p1)
          (ESP32ResponseRelay.get_packet_id data) p2) data ip ip).2 =
      [⟨some p2.interface_ip, p2.interface_ip, p2.requester_port, data⟩] := by
  refine ⟨GVCP.keys_record_nodup h0 pid0 e0, GVCP.lookup_record_self _ pid0 e0', ?_, ?_⟩
  · simp [DiscoveryProxy.handle_esp32_response, GVCP.lookup_record_self,
      if_neg (by omega : ¬ now - e2.timestamp > ttl)]
  · simp [ESP32ResponseRelay.monitor_esp32_response_step, h3, GVCP.lookup_record_self]

/-- C8: In `DiscoveryProxy.forward_to_esp32`, a send failure to one of
two configured devices does not prevent the attempt to the other: the
forward to the reachable device still happens and the error counter
increases by exactly one. -/
theorem spec_C8_per_device_isolation
    (t : DiscoveryProxy.PendingTable) (s : DiscoveryProxy.Stats)
    (packet : List Nat) (rip : String) (rport : Nat) (now ttl : Int)
    (d1 d2 : String) (reach : String → Bool) (rso : String → Bool) (pid : Nat)
    (hpid : DiscoveryProxy.get_packet_id packet = some pid)
    (hcase : (reach d1 = true ∧ reach d2 = false) ∨
             (reach d1 = false ∧ reach d2 = true)) :
    (GVCP.Send.mk none (if reach d1 then d1 else d2) 3956 packet) ∈
      (DiscoveryProxy.forward_to_esp32 t s packet rip rport now ttl
        [d1, d2] reach (fun _ => none) rso).2.2 ∧
    (DiscoveryProxy.forward_to_esp32 t s packet rip rport now ttl
        [d1, d2] reach (fun _ => none) rso).2.1.errors = s.errors + 1 ∧
    (DiscoveryProxy.forward_to_esp32 t s packet rip rport now ttl
        [d1, d2] reach (fun _ => none) rso).2.1.unicast_forwards =
      s.unicast_forwards + 1 := by
  rcases hcase with ⟨ha, hb⟩ | ⟨ha, hb⟩ <;>
    simp [DiscoveryProxy.forward_to_esp32, hpid, DiscoveryProxy.forward_device_step,
      ha, hb]

/-- C1 counterexample: The claim fails on both scripts.  Scenario: a
discovery request with id `0x1234` from requester `10.0.0.5:50000` arrives
on interface `10.0.0.1`.  (1) `ESP32ResponseRelay` records only
`(interface_ip, port)` and relays the matching reply to
`(10.0.0.1, 50000)` — the interface's own address — not to the requester
`10.0.0.5`.  (2) `DiscoveryProxy` sends the reply to the right requester
but from a socket that was never bound (`sourceBind = none`), not from a
socket bound to the recorded interface. -/
theorem spec_C1_counterexample :
    (ESP32ResponseRelay.monitor_interface_step []
        [0x42, 0x01, 0x00, 0x02, 0x00, 0x00, 0x12, 0x34]
        "10.0.0.1" 50000 0 ("192.168.213.40")).1 =
      [(0x1234, ⟨"10.0.0.1", 50000, 0⟩)] ∧
    (ESP32ResponseRelay.monitor_esp32_response_step
        [(0x1234, ⟨"10.0.0.1", 50000, 0⟩)]
        [0x00, 0x00, 0x00, 0x03, 0x00, 0x00, 0x12, 0x34]
        "192.168.213.40" "192.168.213.40").2 =
      [⟨some ("10.0.0.1"), "10.0.0.1", 50000,
        [0x00, 0x00, 0x00, 0x03, 0x00, 0x00, 0x12, 0x34]⟩] ∧
    "10.0.0.1" ≠ "10.0.0.5" ∧
    (DiscoveryProxy.handle_esp32_response [(0x1234, ⟨"10.0.0.5", 50000, 0⟩)]
        DiscoveryProxy.Stats.init
        [0x00, 0x00, 0x00, 0x03, 0x00, 0x00, 0x12, 0x34] 0x1234 1 5 true).2.2 =
      [⟨none, "10.0.0.5", 50000,
        [0x00, 0x00, 0x00, 0x03, 0x00, 0x00, 0x12, 0x34]⟩] := by
  decide

/-- C1 amended: For every matched reply within the TTL:
`DiscoveryProxy.handle_esp32_response` sends exactly the unmodified reply
bytes to the recorded requester's `(ip, port)` but from an UNBOUND socket
(no recorded interface exists in its table);
`ESP32ResponseRelay.monitor_esp32_response_step` sends exactly the
unmodified reply bytes from a socket bound to the recorded `interface_ip`,
but addressed to `(interface_ip, requester_port)` instead of the requester's
IP. -/
theorem spec_C1_relay_send_shape
    (t : DiscoveryProxy.PendingTable) (s : DiscoveryProxy.Stats)
    (resp : List Nat) (pid : Nat) (now ttl : Int)
    (e : DiscoveryProxy.PendingEntry)
    (t2 : ESP32ResponseRelay.PendingTable) (data : List Nat) (ip : String)
    (p : ESP32ResponseRelay.Pending)
    (h1 : GVCP.lookup t pid = some e)
    (h2 : now - e.timestamp ≤ ttl)
    (h3 : ESP32ResponseRelay.is_discovery_response data = true)
    (h4 : GVCP.lookup t2 (ESP32ResponseRelay.get_packet_id data) = some p) :
    (DiscoveryProxy.handle_esp32_response t s resp pid now ttl true).2.2 =
      [⟨none, e.requester_ip, e.requester_port, resp⟩] ∧
    (ESP32ResponseRelay.monitor_esp32_response_step t2 data ip ip).2 =
      [⟨some p.interface_ip, p.interface_ip, p.requester_port, data⟩] := by
  constructor
  · simp [DiscoveryProxy.handle_esp32_response, h1,
      if_neg (by omega : ¬ now - e.timestamp > ttl)]
  · simp [ESP32ResponseRelay.monitor_esp32_response_step, h3, h4]

/-- C6 counterexample: In `ESP32ResponseRelay`, a matching reply that
arrives 6 s after the request was recorded (TTL 5 s) is NOT dropped: the
response path performs no TTL check, so as long as the periodic cleanup has
not yet removed the entry the stale reply is still relayed. -/
theorem spec_C6_counterexample :
    (6 : Int) - 0 > 5 ∧
    (ESP32ResponseRelay.monitor_esp32_response_step
        [(0x1234, ⟨"10.0.0.1", 50000, 0⟩)]
        [0x00, 0x00, 0x00, 0x03, 0x00, 0x00, 0x12, 0x34]
        "192.168.213.40" "192.168.213.40").2 =
      [⟨some ("10.0.0.1"), "10.0.0.1", 50000,
        [0x00, 0x00, 0x00, 0x03, 0x00, 0x00, 0x12, 0x34]⟩] := by
  decide

/-- C6 amended: `DiscoveryProxy.handle_esp32_response` drops a reply
that arrives after the TTL: nothing is sent, the stats are untouched and
the entry is removed from the table.  `ESP32ResponseRelay` relays a matched
reply regardless of its age; a late reply is dropped there only when the
entry is already gone (resolved earlier or swept by the periodic cleanup),
in which case nothing is sent and the table is unchanged. -/
theorem spec_C6_ttl_drop
    (t : DiscoveryProxy.PendingTable) (s : DiscoveryProxy.Stats)
    (resp : List Nat) (pid : Nat) (now ttl : Int)
    (e : DiscoveryProxy.PendingEntry) (ok : Bool)
    (t2 : ESP32ResponseRelay.PendingTable) (data : List Nat) (ip ip' : String)
    (h1 : GVCP.lookup t pid = some e)
    (h2 : now - e.timestamp > ttl)
    (h3 : GVCP.lookup t2 (ESP32ResponseRelay.get_packet_id data) = none) :
    DiscoveryProxy.handle_esp32_response t s resp pid now ttl ok =
      (GVCP.delete t pid, s, []) ∧
    GVCP.lookup (GVCP.delete t pid) pid = none ∧
    ESP32ResponseRelay.monitor_esp32_response_step t2 data ip ip' = (t2, []) := by
  refine ⟨?_, GVCP.lookup_delete_self t pid, ?_⟩
  · simp [DiscoveryProxy.handle_esp32_response, h1, if_pos h2]
  · unfold ESP32ResponseRelay.monitor_esp32_response_step
    rcases hc : (ip == ip' && ESP32ResponseRelay.is_discovery_response data) with _ | _
    · simp
    · simp [h3]

/-- C7 counterexample: A malformed 4-byte packet on a
`DiscoveryProxy` listener is dropped without mutating the table and the
loop continues, but NO error is counted: the stats (including `errors`)
are completely unchanged, contradicting the claim that a `MalformedPacket`
error is counted. -/
theorem spec_C7_counterexample :
    DiscoveryProxy.listen_step [] DiscoveryProxy.Stats.init
      [0x42, 0x00, 0x00, 0x02] "10.0.0.5" 50000 0 5 ["192.168.213.40"]
      (fun _ => true) (fun _ => none) (fun _ => true) =
      ([], DiscoveryProxy.Stats.init, []) ∧
    DiscoveryProxy.Stats.init.errors = 0 := by
  decide

/-- C7 amended: A malformed packet (fewer than 8 bytes) received by a
`DiscoveryProxy` listener is dropped: the pending table is not mutated,
nothing is sent, the loop continues — but no counter (in particular not the
error counter) is incremented; the packet is only logged at debug level. -/
theorem spec_C7_malformed_dropped
    (t : DiscoveryProxy.PendingTable) (s : DiscoveryProxy.Stats)
    (data : List Nat) (sip : String) (sport : Nat) (now ttl : Int)
    (devices : List String) (reach : String → Bool)
    (recv : String → Option (List Nat)) (rso : String → Bool)
    (h : data.length < 8) :
    DiscoveryProxy.listen_step t s data sip sport now ttl devices reach
      recv rso = (t, s, []) := by
  have hp : GVCP.parse_header data = none := (GVCP.parse_header_eq_none_iff data).2 h
  simp [DiscoveryProxy.listen_step, DiscoveryProxy.is_discovery_packet, hp]

theorem spec_C1_relay_send_shape_witness :
    GVCP.lookup Fixtures.dp_table 0x1234 = some Fixtures.dp_entry ∧
    (1 : Int) - 0 ≤ 5 ∧
    ESP32ResponseRelay.is_discovery_response Fixtures.discovery_reply = true ∧
    GVCP.lookup Fixtures.relay_table
        (ESP32ResponseRelay.get_packet_id Fixtures.discovery_reply) =
      some Fixtures.relay_entry ∧
    ((DiscoveryProxy.handle_esp32_response Fixtures.dp_table
          DiscoveryProxy.Stats.init Fixtures.discovery_reply 0x1234 1 5 true).2.2 =
        [⟨none, "10.0.0.5", 50000, Fixtures.discovery_reply⟩] ∧
      (ESP32ResponseRelay.monitor_esp32_response_step Fixtures.relay_table
          Fixtures.discovery_reply ("192.168.213.40") "192.168.213.40").2 =
        [⟨some ("10.0.0.1"), "10.0.0.1", 50000, Fixtures.discovery_reply⟩]) :=
  ⟨by decide, by decide, by decide, by decide,
   spec_C1_relay_send_shape Fixtures.dp_table DiscoveryProxy.Stats.init
     Fixtures.discovery_reply 0x1234 1 5 Fixtures.dp_entry
     Fixtures.relay_table Fixtures.discovery_reply ("192.168.213.40")
     Fixtures.relay_entry (by decide) (by decide) (by decide) (by decide)⟩

theorem spec_C3_resolve_single_use_witness :
    GVCP.lookup Fixtures.dp_table 0x1234 = some Fixtures.dp_entry ∧
    (1 : Int) - 0 ≤ 5 ∧
    ESP32ResponseRelay.is_discovery_response Fixtures.discovery_reply = true ∧
    GVCP.lookup Fixtures.relay_table
        (ESP32ResponseRelay.get_packet_id Fixtures.discovery_reply) =
      some Fixtures.relay_entry ∧
    (((DiscoveryProxy.handle_esp32_response Fixtures.dp_table
          DiscoveryProxy.Stats.init Fixtures.discovery_reply 0x1234 1 5 true).1 =
        GVCP.delete Fixtures.dp_table 0x1234 ∧
      GVCP.lookup (GVCP.delete Fixtures.dp_table 0x1234) 0x1234 = none ∧
      DiscoveryProxy.handle_esp32_response (GVCP.delete Fixtures.dp_table 0x1234)
          DiscoveryProxy.Stats.init Fixtures.discovery_reply 0x1234 1 5 true =
        (GVCP.delete Fixtures.dp_table 0x1234, DiscoveryProxy.Stats.init, [])) ∧
     ((ESP32ResponseRelay.monitor_esp32_response_step Fixtures.relay_table
          Fixtures.discovery_reply ("192.168.213.40") "192.168.213.40").1 =
        GVCP.delete Fixtures.relay_table 0x1234 ∧
      GVCP.lookup (GVCP.delete Fixtures.relay_table 0x1234) 0x1234 = none ∧
      ESP32ResponseRelay.monitor_esp32_response_step
          (GVCP.delete Fixtures.relay_table 0x1234) Fixtures.discovery_reply
          "192.168.213.40" "192.168.213.40" =
        (GVCP.delete Fixtures.relay_table 0x1234, []))) :=
  ⟨by decide, by decide, by decide, by decide,
   spec_C3_resolve_single_use Fixtures.dp_table DiscoveryProxy.Stats.init
     DiscoveryProxy.Stats.init Fixtures.discovery_reply Fixtures.discovery_reply
     0x1234 1 5 1 5 Fixtures.dp_entry true Fixtures.relay_table
     Fixtures.discovery_reply ("192.168.213.40") Fixtures.relay_entry
     (by decide) (by decide) (by decide) (by decide)⟩

theorem spec_C4_last_write_wins_witness :
    (GVCP.keys ([] : DiscoveryProxy.PendingTable)).Nodup ∧
    (1 : Int) - 1 ≤ 5 ∧
    ESP32ResponseRelay.is_discovery_response Fixtures.discovery_reply = true ∧
    ((GVCP.keys (GVCP.record ([] : DiscoveryProxy.PendingTable) 7
        Fixtures.dp_entry)).Nodup ∧
      GVCP.lookup (GVCP.record (GVCP.record ([] : DiscoveryProxy.PendingTable) 7
          Fixtures.dp_entry) 7 Fixtures.dp_entry2) 7 = some Fixtures.dp_entry2 ∧
      (DiscoveryProxy.handle_esp32_response
          (GVCP.record (GVCP.record [] 0x1234 Fixtures.dp_entry) 0x1234
            Fixtures.dp_entry2)
          DiscoveryProxy.Stats.init Fixtures.discovery_reply 0x1234 1 5 true).2.2 =
        [⟨none, "10.0.0.6", 40000, Fixtures.discovery_reply⟩] ∧
      (ESP32ResponseRelay.monitor_esp32_response_step
          (GVCP.record (GVCP.record [] 0x1234 Fixtures.relay_entry) 0x1234
            Fixtures.relay_entry2)
          Fixtures.discovery_reply ("192.168.213.40") "192.168.213.40").2 =
        [⟨some ("10.0.0.2"), "10.0.0.2", 40000, Fixtures.discovery_reply⟩]) :=
  ⟨by decide, by decide, by decide,
   spec_C4_last_write_wins ([] : DiscoveryProxy.PendingTable) 7
     Fixtures.dp_entry Fixtures.dp_entry2 [] DiscoveryProxy.Stats.init
     Fixtures.discovery_reply 0x1234 1 5 Fixtures.dp_entry Fixtures.dp_entry2
     [] Fixtures.discovery_reply ("192.168.213.40") Fixtures.relay_entry
     Fixtures.relay_entry2 (by decide) (by decide) (by decide)⟩

theorem spec_C6_ttl_drop_witness :
    GVCP.lookup Fixtures.dp_table 0x1234 = some Fixtures.dp_entry ∧
    (6 : Int) - 0 > 5 ∧
    GVCP.lookup ([] : ESP32ResponseRelay.PendingTable)
        (ESP32ResponseRelay.get_packet_id Fixtures.discovery_reply) = none ∧
    (DiscoveryProxy.handle_esp32_response Fixtures.dp_table
        DiscoveryProxy.Stats.init Fixtures.discovery_reply 0x1234 6 5 true =
      (GVCP.delete Fixtures.dp_table 0x1234, DiscoveryProxy.Stats.init, []) ∧
    GVCP.lookup (GVCP.delete Fixtures.dp_table 0x1234) 0x1234 = none ∧
    ESP32ResponseRelay.monitor_esp32_response_step []
        Fixtures.discovery_reply ("192.168.213.40") "192.168.213.40" = ([], [])) :=
  ⟨by decide, by decide, by decide,
   spec_C6_ttl_drop Fixtures.dp_table DiscoveryProxy.Stats.init
     Fixtures.discovery_reply 0x1234 6 5 Fixtures.dp_entry true []
     Fixtures.discovery_reply ("192.168.213.40") "192.168.213.40"
     (by decide) (by decide) (by decide)⟩

theorem spec_C7_malformed_dropped_witness :
    ([1, 2, 3] : List Nat).length < 8 ∧
    DiscoveryProxy.listen_step Fixtures.dp_table DiscoveryProxy.Stats.init
      [1, 2, 3] "10.0.0.5" 50000 0 5 ["192.168.213.40"] (fun _ => true)
      (fun _ => none) (fun _ => true) =
      (Fixtures.dp_table, DiscoveryProxy.Stats.init, []) :=
  ⟨by decide,
   spec_C7_malformed_dropped Fixtures.dp_table DiscoveryProxy.Stats.init
     [1, 2, 3] "10.0.0.5" 50000 0 5 ["192.168.213.40"] (fun _ => true)
     (fun _ => none) (fun _ => true) (by decide)⟩

theorem spec_C8_per_device_isolation_witness :
    DiscoveryProxy.get_packet_id Fixtures.discovery_request = some 0x1234 ∧
    (((fun d => d == "192.168.213.41") "192.168.213.40" = true ∧
        (fun d => d == "192.168.213.41") "192.168.213.41" = false) ∨
      ((fun d => d == "192.168.213.41") "192.168.213.40" = false ∧
        (fun d => d == "192.168.213.41") "192.168.213.41" = true)) ∧
    (GVCP.Send.mk none ("192.168.213.41") 3956 Fixtures.discovery_request ∈
      (DiscoveryProxy.forward_to_esp32 [] DiscoveryProxy.Stats.init
        Fixtures.discovery_request ("10.0.0.5") 50000 0 5
        ["192.168.213.40", "192.168.213.41"] (fun d => d == "192.168.213.41")
        (fun _ => none) (fun _ => true)).2.2 ∧
    (DiscoveryProxy.forward_to_esp32 [] DiscoveryProxy.Stats.init
        Fixtures.discovery_request ("10.0.0.5") 50000 0 5
        ["192.168.213.40", "192.168.213.41"] (fun d => d == "192.168.213.41")
        (fun _ => none) (fun _ => true)).2.1.errors =
      DiscoveryProxy.Stats.init.errors + 1 ∧
    (DiscoveryProxy.forward_to_esp32 [] DiscoveryProxy.Stats.init
        Fixtures.discovery_request ("10.0.0.5") 50000 0 5
        ["192.168.213.40", "192.168.213.41"] (fun d => d == "192.168.213.41")
        (fun _ => none) (fun _ => true)).2.1.unicast_forwards =
      DiscoveryProxy.Stats.init.unicast_forwards + 1) :=
  ⟨by decide, by decide,
   spec_C8_per_device_isolation [] DiscoveryProxy.Stats.init
     Fixtures.discovery_request ("10.0.0.5") 50000 0 5 ("192.168.213.40")
     "192.168.213.41" (fun d => d == "192.168.213.41") (fun _ => true) 0x1234
     (by decide) (by decide)⟩

theorem spec_C10_send_failure_keeps_entry_witness :
    GVCP.lookup Fixtures.dp_table 0x1234 = some Fixtures.dp_entry ∧
    (1 : Int) - 0 ≤ 5 ∧
    (2 : Int) - 0 ≤ 5 ∧
    (DiscoveryProxy.handle_esp32_response Fixtures.dp_table
        DiscoveryProxy.Stats.init Fixtures.discovery_reply 0x1234 1 5 false =
      (Fixtures.dp_table,
       { DiscoveryProxy.Stats.init with
          errors := DiscoveryProxy.Stats.init.errors + 1 }, []) ∧
    (DiscoveryProxy.handle_esp32_response Fixtures.dp_table
        DiscoveryProxy.Stats.init Fixtures.discovery_reply 0x1234 2 5 true).2.2 =
      [⟨none, "10.0.0.5", 50000, Fixtures.discovery_reply⟩] ∧
    (DiscoveryProxy.handle_esp32_response Fixtures.dp_table
        DiscoveryProxy.Stats.init Fixtures.discovery_reply 0x1234 2 5 true).1 =
      GVCP.delete Fixtures.dp_table 0x1234) :=
  ⟨by decide, by decide, by decide,
   spec_C10_send_failure_keeps_entry Fixtures.dp_table DiscoveryProxy.Stats.init
     DiscoveryProxy.Stats.init Fixtures.discovery_reply Fixtures.discovery_reply
     0x1234 1 5 2 Fixtures.dp_entry (by decide) (by decide) (by decide)⟩
